import Mathlib

/-!
Verification development for the Smart Investment Advisor projection engine
(`app.py`).  The rule-based helpers of the source are embedded shallowly:
float arithmetic is modelled over `ℚ` where the source only adds, divides and
compares decimal constants (risk scoring, allocation tables, normalisation),
and over `ℝ` where the source takes real powers (compounding projections,
`(1 + r) ** (1/12)`).  Machine floats are idealised as exact rationals/reals;
the spec's "within floating tolerance" statements become exact equalities.
-/

namespace SmartAdvisor

/-- The three risk tiers produced by `infer_risk` ("Low"/"Medium"/"High"). -/
inductive RiskLevel where
  | low
  | medium
  | high
deriving DecidableEq, Repr

/-- Python `inferred_risk.lower()` on the tier strings. -/
def RiskLevel.lower : RiskLevel → String
  | .low => "low"
  | .medium => "medium"
  | .high => "high"

/-- The fixed asset universe used by the allocation helpers. -/
inductive Asset where
  | equity
  | debt
  | gold
  | cash
deriving DecidableEq, Repr

/-- An allocation dict over the fixed four-key universe. -/
structure Alloc where
  equity : ℚ
  debt : ℚ
  gold : ℚ
  cash : ℚ
deriving DecidableEq, Repr

def Alloc.get (a : Alloc) : Asset → ℚ
  | .equity => a.equity
  | .debt => a.debt
  | .gold => a.gold
  | .cash => a.cash

/-- `sum(out.values())` over the four fixed keys. -/
def Alloc.total (a : Alloc) : ℚ :=
  a.equity + a.debt + a.gold + a.cash

/-- `suggest_allocation_from_risk` (app.py lines 170-175). -/
def suggest_allocation_from_risk : RiskLevel → Alloc
  | .low => ⟨0.20, 0.65, 0.10, 0.05⟩
  | .high => ⟨0.75, 0.15, 0.05, 0.05⟩
  | .medium => ⟨0.55, 0.30, 0.10, 0.05⟩

/-- `expected_return_from_risk` (app.py lines 178-179). -/
def expected_return_from_risk : RiskLevel → ℚ
  | .low => 0.07
  | .medium => 0.11
  | .high => 0.14

/-- The savings-rate expression of `infer_risk` (app.py line 183):
`0 if income <= 0 else monthly_invest / max(income, 1)`. -/
def savings_rate (monthly_invest income : ℚ) : ℚ :=
  if income ≤ 0 then 0 else monthly_invest / max income 1

/-- `infer_risk` (app.py lines 182-201), with the score accumulated in the
same order as the source's `score +=` statements. -/
def infer_risk (age horizon : ℤ) (goals : List String)
    (monthly_invest income : ℚ) : RiskLevel × ℤ :=
  let sr := savings_rate monthly_invest income
  let long_horizon := 15 ≤ horizon
  let many_growth_goals :=
    (["Wealth Creation", "Retirement"].any fun g => goals.contains g)
  let score0 : ℤ := 0
  let score1 := if age < 35 then score0 + 2 else if age ≤ 50 then score0 + 1 else score0
  let score2 := if long_horizon then score1 + 2 else score1
  let score3 := if (0.3 : ℚ) ≤ sr then score2 + 1 else score2
  let score4 := if many_growth_goals then score3 + 1 else score3
  if score4 ≤ 2 then (.low, score4)
  else if score4 ≤ 4 then (.medium, score4)
  else (.high, score4)

/-- A raw allocation mapping handed to `normalize_allocation`: `none` for a
key stands for "missing or non-numeric" (both fall back to the default's
value for that key in the source's `try`/`except`). -/
abbrev RawAlloc := Asset → Option ℚ

/-- The coerced per-key value `out[k]` built by `normalize_allocation`
(app.py lines 207-211). -/
def coerced (raw : RawAlloc) (default_alloc : Alloc) (k : Asset) : ℚ :=
  (raw k).getD (default_alloc.get k)

/-- `s = sum(out.values())` in `normalize_allocation` (app.py line 212). -/
def coerced_total (raw : RawAlloc) (default_alloc : Alloc) : ℚ :=
  coerced raw default_alloc .equity + coerced raw default_alloc .debt +
    coerced raw default_alloc .gold + coerced raw default_alloc .cash

/-- `normalize_allocation` (app.py lines 204-215). -/
def normalize_allocation (raw : RawAlloc) (default_alloc : Alloc) : Alloc :=
  let s := coerced_total raw default_alloc
  if s ≤ 0 then default_alloc
  else
    ⟨coerced raw default_alloc .equity / s, coerced raw default_alloc .debt / s,
      coerced raw default_alloc .gold / s, coerced raw default_alloc .cash / s⟩

/-- `fv_lump_sum(P, r, n) = P * ((1 + r) ** n)` (app.py lines 136-137);
`n` is a whole number of periods at every call site. -/
noncomputable def fv_lump_sum (P r : ℝ) (n : ℕ) : ℝ :=
  P * (1 + r) ^ n

/-- `fv_annuity` (app.py lines 140-143), with its explicit zero-rate guard. -/
noncomputable def fv_annuity (PMT r : ℝ) (n : ℕ) : ℝ :=
  if r = 0 then PMT * n
  else PMT * (((1 + r) ^ n - 1) / r)

/-- `annual_to_monthly_rate(annual_rate) = (1 + annual_rate) ** (1 / 12) - 1`
(app.py lines 146-147), with the real-exponent power. -/
noncomputable def annual_to_monthly_rate (annual_rate : ℝ) : ℝ :=
  (1 + annual_rate) ^ ((1 : ℝ) / 12) - 1

/-- `discount_to_present` (app.py lines 150-151); every call site passes a
whole number of years. -/
noncomputable def discount_to_present (future_value inflation_rate : ℝ) (years : ℕ) : ℝ :=
  future_value / (1 + inflation_rate) ^ years

/-- `project_corpus` (app.py lines 154-159): `m = int(years * 12)` months at
the monthly-equivalent rate, lump sum plus annuity. -/
noncomputable def project_corpus (current_savings monthly_invest annual_return : ℝ)
    (years : ℕ) : ℝ :=
  let m := years * 12
  let rm := annual_to_monthly_rate annual_return
  fv_lump_sum current_savings rm m + fv_annuity monthly_invest rm m

/-- `project_fd_corpus` (app.py lines 162-163): annual compounding. -/
noncomputable def project_fd_corpus (principal annual_rate : ℝ) (years : ℕ) : ℝ :=
  principal * (1 + annual_rate) ^ years

/-- `inflation_adjust_series` (app.py lines 166-167): `zip` truncates to the
shorter of the two sequences. -/
noncomputable def inflation_adjust_series (values : List ℝ) (inflation_rate : ℝ)
    (years_list : List ℕ) : List ℝ :=
  (values.zip years_list).map fun vy => discount_to_present vy.1 inflation_rate vy.2

/-- One iteration of the inner month loop (app.py line 388):
`bal = bal * (1 + rm) + float(monthly_invest)`. -/
noncomputable def month_step (rm pmt bal : ℝ) : ℝ :=
  bal * (1 + rm) + pmt

/-- `k` iterations of the month loop starting from `bal`. -/
noncomputable def run_months (rm pmt bal : ℝ) : ℕ → ℝ
  | 0 => bal
  | k + 1 => month_step rm pmt (run_months rm pmt bal k)

/-- The year-by-year balance list built by the simulation loop of `tab_main`
(app.py lines 382-389): twelve month steps per year, balance appended at each
year end. -/
noncomputable def yearly_balances (rm pmt bal : ℝ) : ℕ → List ℝ
  | 0 => []
  | n + 1 =>
    run_months rm pmt bal 12 :: yearly_balances rm pmt (run_months rm pmt bal 12) n

/-- Helper for `group_digits`: walks the reversed digit list, inserting a
comma after every third digit. -/
def rev_group : List Char → ℕ → List Char
  | [], _ => []
  | c :: cs, k =>
    if k ≠ 0 ∧ k % 3 = 0 then ',' :: c :: rev_group cs (k + 1)
    else c :: rev_group cs (k + 1)

/-- Python's `f"{x:,.0f}"` on a whole-number amount: decimal digits grouped in
threes by commas, no fractional part. -/
def group_digits (n : ℕ) : String :=
  String.mk (rev_group (Nat.repr n).data.reverse 0).reverse

/-- Python's `f"{q:.1f}"` on a non-negative exact rational: one decimal digit,
rounding half up (the source only formats 7.0, 11.0 and 14.0 here, which are
not ties, so the tie-breaking convention is immaterial). -/
def format_1f (q : ℚ) : String :=
  let t : ℤ := (20 * q.num + q.den) / (2 * (q.den : ℤ))
  Nat.repr (t.toNat / 10) ++ "." ++ Nat.repr (t.toNat % 10)

/-- The deterministic fallback advisor sentence built when the LLM call
returns nothing (app.py lines 368-374). -/
def fallback_advice (age monthly_invest current_savings horizon : ℕ)
    (inferred_risk : RiskLevel) (exp_ret : ℚ) : String :=
  "Based on your age (" ++ Nat.repr age ++ "), monthly investment of roughly ₹"
    ++ group_digits monthly_invest ++ ", current savings of about ₹"
    ++ group_digits current_savings ++ ", and a " ++ Nat.repr horizon
    ++ "-year horizon, this preview assumes a " ++ inferred_risk.lower
    ++ " risk profile with an expected CAGR of around "
    ++ format_1f (exp_ret * 100)
    ++ "% per year. Use this purely as research, not as a guarantee."

/-- The retry loop of `call_llm_with_backoff` (app.py lines 264-275): each
entry of `responses` is the outcome of one attempt (`some content` for an
HTTP 200 with extractable content, `none` for an exception, timeout or
non-200 status); the first success is returned, exhaustion yields `none`. -/
def attempt_loop : List (Option String) → Option String
  | [] => none
  | r :: rest =>
    match r with
    | some content => some content
    | none => attempt_loop rest

/-- `call_llm_with_backoff` (app.py lines 223-275) with its network boundary
made explicit: `api_key` is the resolved credential (`None` when missing, in
which case the function returns `None` immediately) and `responses` the
per-attempt outcomes of the retry loop. -/
def call_llm_with_backoff (api_key : Option String)
    (responses : List (Option String)) : Option String :=
  match api_key with
  | none => none
  | some _ => attempt_loop responses

/-- The numeric-plus-advice bundle assembled by the `tab_main` run
(app.py lines 332-390). -/
structure RunOutput where
  advice : String
  risk_level : RiskLevel
  risk_score : ℤ
  exp_ret : ℚ
  corpus_port : ℝ
  corpus_fd : ℝ
  real_corpus_port : ℝ
  balances_nominal : List ℝ
  balances_real : List ℝ

/-- The run performed by `tab_main` on submission (app.py lines 332-390):
risk inference, expected return, advice (LLM result if non-empty, else
deterministic fallback — Python's `if not llm_advice` also treats an empty
string as absent), corpus projections and the year-by-year balance series. -/
noncomputable def run_advisor (age horizon income monthly_invest current_savings : ℕ)
    (inflation_rate fd_rate : ℝ) (goals : List String)
    (llm_advice : Option String) : RunOutput :=
  let rr := infer_risk (age : ℤ) (horizon : ℤ) goals (monthly_invest : ℚ) (income : ℚ)
  let exp_ret := expected_return_from_risk rr.1
  let advice :=
    match llm_advice with
    | none => fallback_advice age monthly_invest current_savings horizon rr.1 exp_ret
    | some t =>
      if t = "" then fallback_advice age monthly_invest current_savings horizon rr.1 exp_ret
      else t
  let corpus_port :=
    project_corpus (current_savings : ℝ) (monthly_invest : ℝ) (exp_ret : ℝ) horizon
  let corpus_fd :=
    project_fd_corpus ((current_savings : ℝ) + (monthly_invest : ℝ) * 12 * horizon)
      fd_rate horizon
  let real_corpus_port := discount_to_present corpus_port inflation_rate horizon
  let rm := annual_to_monthly_rate (exp_ret : ℝ)
  let balances_nominal := yearly_balances rm (monthly_invest : ℝ) (current_savings : ℝ) horizon
  let balances_real :=
    inflation_adjust_series balances_nominal inflation_rate (List.range' 1 horizon)
  ⟨advice, rr.1, rr.2, exp_ret, corpus_port, corpus_fd, real_corpus_port,
    balances_nominal, balances_real⟩

/-- Spec §4.1, stated in the spec's own words: the additive score whose
savings-rate term is `monthlyInvestment / max(monthlyIncome, 1)` with the
divisor floored at 1 (no zero-income short-circuit). -/
def spec_score (age horizon : ℤ) (goals : List String)
    (monthly_invest income : ℚ) : ℤ :=
  (if age < 35 then 2 else if age ≤ 50 then 1 else 0)
    + (if 15 ≤ horizon then 2 else 0)
    + (if (0.3 : ℚ) ≤ monthly_invest / max income 1 then 1 else 0)
    + (if "Wealth Creation" ∈ goals ∨ "Retirement" ∈ goals then 1 else 0)

/-- The additive score the code actually computes: identical to `spec_score`
except that the savings-rate term is the source's guarded
`0 if income <= 0 else monthly_invest / max(income, 1)`. -/
def additive_score (age horizon : ℤ) (goals : List String)
    (monthly_invest income : ℚ) : ℤ :=
  (if age < 35 then 2 else if age ≤ 50 then 1 else 0)
    + (if 15 ≤ horizon then 2 else 0)
    + (if (0.3 : ℚ) ≤ savings_rate monthly_invest income then 1 else 0)
    + (if "Wealth Creation" ∈ goals ∨ "Retirement" ∈ goals then 1 else 0)

/-- Spec §4.1 tier mapping: score ≤ 2 → Low, 3-4 → Medium, ≥ 5 → High. -/
def tier_for_score (s : ℤ) : RiskLevel :=
  if s ≤ 2 then .low else if s ≤ 4 then .medium else .high

/-! ### Helper lemmas -/

lemma many_growth_goals_eq_true (goals : List String) :
    ((["Wealth Creation", "Retirement"] : List String).any fun g => goals.contains g) = true ↔
      "Wealth Creation" ∈ goals ∨ "Retirement" ∈ goals := by
  simp [List.any_cons, List.any_nil]

lemma ite_add_shift (c : Prop) [Decidable c] (a b : ℤ) :
    (if c then a + b else a) = a + (if c then b else 0) := by
  split_ifs <;> simp

/-- The source's sequential `score +=` accumulation agrees with the additive
presentation (with the code's guarded savings rate), and the final branch is
the spec's tier table. -/
lemma infer_risk_eq_additive (age horizon : ℤ) (goals : List String)
    (monthly_invest income : ℚ) :
    infer_risk age horizon goals monthly_invest income =
      (tier_for_score (additive_score age horizon goals monthly_invest income),
        additive_score age horizon goals monthly_invest income) := by
  simp only [infer_risk, additive_score, tier_for_score, many_growth_goals_eq_true,
    zero_add, ite_add_shift]
  split_ifs <;> rfl

/-! ### Claim theorems -/

/-- C2 (amended): `classify` computes its score additively — age < 35 adds 2,
age in [35,50] adds 1, age > 50 adds 0; horizon ≥ 15 adds 2; the savings-rate
term (which is 0 when income ≤ 0, and monthlyInvestment / max(income, 1)
otherwise) ≥ 0.3 adds 1; a "Wealth Creation" or "Retirement" goal adds 1 —
and maps score ≤ 2 to Low, 3-4 to Medium, ≥ 5 to High; in particular age=30,
horizon=20, goals=["Wealth Creation"], monthlyInvestment=30000,
income=100000 yields score 6 and tier High. -/
theorem C2_classify_additive_score :
    (∀ (age horizon : ℤ) (goals : List String) (monthly_invest income : ℚ),
        infer_risk age horizon goals monthly_invest income =
          (tier_for_score (additive_score age horizon goals monthly_invest income),
            additive_score age horizon goals monthly_invest income)) ∧
    infer_risk 30 20 ["Wealth Creation"] 30000 100000 = (.high, 6) := by
  refine ⟨infer_risk_eq_additive, ?_⟩
  rw [infer_risk_eq_additive]
  norm_num [additive_score, savings_rate, tier_for_score]

/-- C2 counterexample: with income = 0 (≤ 0) the code short-circuits the
savings rate to 0, so its score differs from the spec's additive rule whose
savings-rate term is monthlyInvestment / max(income, 1). -/
theorem C2_counterexample :
    ¬ ((infer_risk 60 5 ["Other"] 1 0).2 = spec_score 60 5 ["Other"] 1 0) := by
  rw [infer_risk_eq_additive]
  norm_num [additive_score, savings_rate, spec_score]

/-- C3 (amended): for monthlyIncome ≤ 0, `classify` computes the savings-rate
term as 0 (short-circuiting before any division), so the savings-rate rule
contributes nothing to the score regardless of monthlyInvestment. -/
theorem C3_zero_income_rate_zero :
    ∀ (age horizon : ℤ) (goals : List String) (monthly_invest income : ℚ),
      income ≤ 0 →
      savings_rate monthly_invest income = 0 ∧
      infer_risk age horizon goals monthly_invest income =
        infer_risk age horizon goals 0 income := by
  intro age horizon goals mi income h
  have hs : savings_rate mi income = 0 := by simp [savings_rate, h]
  have hs0 : savings_rate 0 income = 0 := by simp [savings_rate, h]
  refine ⟨hs, ?_⟩
  simp only [infer_risk, hs, hs0]

theorem C3_zero_income_rate_zero_witness :
    (0 : ℚ) ≤ 0 ∧ savings_rate 1 0 = 0 ∧
      infer_risk 30 20 ["Retirement"] 1 0 = infer_risk 30 20 ["Retirement"] 0 0 :=
  ⟨le_refl 0, (C3_zero_income_rate_zero 30 20 ["Retirement"] 1 0 (le_refl 0)).1,
    (C3_zero_income_rate_zero 30 20 ["Retirement"] 1 0 (le_refl 0)).2⟩

/-- C3 counterexample: with income = 0 and monthlyInvestment = 2/5 ≥ 0.3 the
code's savings-rate rule contributes 0, not the 1 the claim's
monthlyInvestment / max(income, 1) formula predicts. -/
theorem C3_counterexample :
    ¬ ((infer_risk 60 5 ["Other"] (2/5) 0).2 = spec_score 60 5 ["Other"] (2/5) 0) := by
  rw [infer_risk_eq_additive]
  norm_num [additive_score, savings_rate, spec_score]

/-- C4: `allocationFor` and `expectedReturnFor` are the exact fixed lookup
table of the spec — Low → (0.20, 0.65, 0.10, 0.05) at 7%, Medium →
(0.55, 0.30, 0.10, 0.05) at 11%, High → (0.75, 0.15, 0.05, 0.05) at 14%. -/
theorem C4_lookup_tables :
    suggest_allocation_from_risk .low = ⟨0.20, 0.65, 0.10, 0.05⟩ ∧
    suggest_allocation_from_risk .medium = ⟨0.55, 0.30, 0.10, 0.05⟩ ∧
    suggest_allocation_from_risk .high = ⟨0.75, 0.15, 0.05, 0.05⟩ ∧
    expected_return_from_risk .low = 0.07 ∧
    expected_return_from_risk .medium = 0.11 ∧
    expected_return_from_risk .high = 0.14 :=
  ⟨rfl, rfl, rfl, rfl, rfl, rfl⟩

/-- C5 (amended): every tier allocation has non-negative weights summing to
exactly 1; `normalize` returns weights summing to exactly 1 whenever the
coerced four-key total is positive, and those weights are non-negative
whenever the coerced entries themselves are non-negative (a raw mapping with
a negative entry but positive total is rescaled sign-preservingly, so
non-negativity cannot hold unconditionally). -/
theorem C5_mix_invariant :
    (∀ (t : RiskLevel) (k : Asset), 0 ≤ (suggest_allocation_from_risk t).get k) ∧
    (∀ t : RiskLevel, (suggest_allocation_from_risk t).total = 1) ∧
    (∀ (raw : RawAlloc) (d : Alloc), 0 < coerced_total raw d →
        (normalize_allocation raw d).total = 1) ∧
    (∀ (raw : RawAlloc) (d : Alloc), 0 < coerced_total raw d →
        (∀ k, 0 ≤ coerced raw d k) → ∀ k, 0 ≤ (normalize_allocation raw d).get k) := by
  refine ⟨?_, ?_, ?_, ?_⟩
  · intro t k
    cases t <;> cases k <;> norm_num [suggest_allocation_from_risk, Alloc.get]
  · intro t
    cases t <;> norm_num [suggest_allocation_from_risk, Alloc.total]
  · intro raw d h
    have hns : ¬ coerced_total raw d ≤ 0 := not_le.mpr h
    simp only [normalize_allocation, if_neg hns, Alloc.total]
    rw [div_add_div_same, div_add_div_same, div_add_div_same]
    show coerced_total raw d / coerced_total raw d = 1
    exact div_self (ne_of_gt h)
  · intro raw d h hk k
    have hns : ¬ coerced_total raw d ≤ 0 := not_le.mpr h
    cases k <;> simp only [normalize_allocation, if_neg hns, Alloc.get] <;>
      exact div_nonneg (hk _) (le_of_lt h)

theorem C5_mix_invariant_witness :
    0 < coerced_total (fun _ => some 0.25) ⟨0.55, 0.30, 0.10, 0.05⟩ ∧
    (normalize_allocation (fun _ => some 0.25) ⟨0.55, 0.30, 0.10, 0.05⟩).total = 1 ∧
    0 ≤ (normalize_allocation (fun _ => some 0.25) ⟨0.55, 0.30, 0.10, 0.05⟩).get .equity := by
  have h : 0 < coerced_total (fun _ => some 0.25) ⟨0.55, 0.30, 0.10, 0.05⟩ := by
    norm_num [coerced_total, coerced]
  have hk : ∀ k, 0 ≤ coerced (fun _ => some 0.25) ⟨0.55, 0.30, 0.10, 0.05⟩ k := by
    intro k; norm_num [coerced]
  exact ⟨h, C5_mix_invariant.2.2.1 _ _ h, C5_mix_invariant.2.2.2 _ _ h hk .equity⟩

/-- C5 counterexample: a raw mapping with a negative entry but positive
coerced total is rescaled by `normalize` into a mix with a negative weight,
so the claimed unconditional non-negativity fails. -/
theorem C5_counterexample :
    0 < coerced_total
        (fun a => match a with | .equity => some (-1) | .debt => some 3 | _ => some 0)
        ⟨0.55, 0.30, 0.10, 0.05⟩ ∧
    (normalize_allocation
        (fun a => match a with | .equity => some (-1) | .debt => some 3 | _ => some 0)
        ⟨0.55, 0.30, 0.10, 0.05⟩).equity < 0 := by
  constructor <;>
    norm_num [coerced_total, coerced, normalize_allocation, Alloc.get]

/-- C9 (amended): `normalize` on an all-zero raw mapping, or on any raw
mapping whose coerced total is ≤ 0, returns the default mix unchanged; on an
empty raw mapping it returns the default unchanged whenever the default's
weights sum to 1 (as all tier defaults do — in general the empty-raw result
is the default rescaled by its own total). -/
theorem C9_normalize_default_passthrough :
    (∀ d : Alloc, normalize_allocation (fun _ => some 0) d = d) ∧
    (∀ (raw : RawAlloc) (d : Alloc), coerced_total raw d ≤ 0 →
        normalize_allocation raw d = d) ∧
    (∀ d : Alloc, d.total = 1 → normalize_allocation (fun _ => none) d = d) := by
  have habs : ∀ (raw : RawAlloc) (d : Alloc), coerced_total raw d ≤ 0 →
      normalize_allocation raw d = d := by
    intro raw d h
    simp [normalize_allocation, h]
  refine ⟨?_, habs, ?_⟩
  · intro d
    apply habs
    norm_num [coerced_total, coerced]
  · intro d h
    have ht : coerced_total (fun _ => none) d = d.total := rfl
    have hpos : ¬ coerced_total (fun _ => none) d ≤ 0 := by
      rw [ht, h]; norm_num
    obtain ⟨e, db, g, c⟩ := d
    simp only [normalize_allocation, if_neg hpos]
    rw [ht, h]
    simp [coerced, Alloc.get]

theorem C9_normalize_default_passthrough_witness :
    coerced_total (fun _ => some (-1)) ⟨0.55, 0.30, 0.10, 0.05⟩ ≤ 0 ∧
    normalize_allocation (fun _ => some (-1)) ⟨0.55, 0.30, 0.10, 0.05⟩ =
      ⟨0.55, 0.30, 0.10, 0.05⟩ ∧
    Alloc.total ⟨0.20, 0.65, 0.10, 0.05⟩ = 1 ∧
    normalize_allocation (fun _ => none) ⟨0.20, 0.65, 0.10, 0.05⟩ =
      ⟨0.20, 0.65, 0.10, 0.05⟩ := by
  have h1 : coerced_total (fun _ => some (-1)) ⟨0.55, 0.30, 0.10, 0.05⟩ ≤ 0 := by
    norm_num [coerced_total, coerced]
  have h2 : Alloc.total ⟨0.20, 0.65, 0.10, 0.05⟩ = 1 := by
    norm_num [Alloc.total]
  exact ⟨h1, C9_normalize_default_passthrough.2.1 _ _ h1, h2,
    C9_normalize_default_passthrough.2.2 _ h2⟩

/-- C9 counterexample: on an empty raw mapping, `normalize` rescales the
default by its own total, so a default mapping whose weights do not sum to 1
is not returned unchanged. -/
theorem C9_counterexample :
    normalize_allocation (fun _ => none) ⟨1, 1, 1, 1⟩ ≠ ⟨1, 1, 1, 1⟩ := by
  norm_num [normalize_allocation, coerced_total, coerced, Alloc.get, Alloc.mk.injEq]

/-- C7 counterexample: with principal 0 the future value is 0 at every
period count, so strict monotonicity in numPeriods fails as universally
stated (at P = 0, r = 1, n = 0 < m = 1). -/
theorem C7_counterexample :
    ¬ (∀ (P r : ℝ) (n m : ℕ), 0 < r → n < m →
        fv_lump_sum P r n < fv_lump_sum P r m) := by
  intro h
  have h2 := h 0 1 0 1 one_pos Nat.zero_lt_one
  simp [fv_lump_sum] at h2

/-- C7 (amended): for every positive principal, periodicRate > 0 and
numPeriods ≥ 0, `futureValueLumpSum(principal, periodicRate, numPeriods)` is
strictly increasing in numPeriods. -/
theorem C7_fv_lump_sum_strict_mono :
    ∀ (P r : ℝ) (n m : ℕ), 0 < P → 0 < r → n < m →
      fv_lump_sum P r n < fv_lump_sum P r m := by
  intro P r n m hP hr hnm
  unfold fv_lump_sum
  have h1 : (1 : ℝ) < 1 + r := by linarith
  exact mul_lt_mul_of_pos_left (pow_lt_pow_right₀ h1 hnm) hP

theorem C7_fv_lump_sum_strict_mono_witness :
    (0 : ℝ) < 1 ∧ (0 : ℝ) < 1 ∧ 0 < 1 ∧ fv_lump_sum 1 1 0 < fv_lump_sum 1 1 1 :=
  ⟨one_pos, one_pos, Nat.zero_lt_one,
    C7_fv_lump_sum_strict_mono 1 1 0 1 one_pos one_pos Nat.zero_lt_one⟩

/-- C8: `annualToMonthlyRate(0.0)` equals 0 exactly, and for every r in
[0, 1] the round-trip (1 + annualToMonthlyRate(r))^12 equals 1 + r exactly
(the function being the true monthly-compounding equivalent
(1 + r)^(1/12) − 1). -/
theorem C8_monthly_rate_roundtrip :
    annual_to_monthly_rate 0 = 0 ∧
    ∀ r : ℝ, 0 ≤ r → r ≤ 1 →
      (1 + annual_to_monthly_rate r) ^ (12 : ℕ) = 1 + r := by
  constructor
  · unfold annual_to_monthly_rate
    norm_num [Real.one_rpow]
  · intro r h0 _h1
    unfold annual_to_monthly_rate
    have hx : (0 : ℝ) ≤ 1 + r := by linarith
    have h2 : 1 + ((1 + r) ^ ((1 : ℝ) / 12) - 1) = (1 + r) ^ ((1 : ℝ) / 12) := by
      ring
    rw [h2, ← Real.rpow_natCast ((1 + r) ^ ((1 : ℝ) / 12)) 12, ← Real.rpow_mul hx]
    norm_num [Real.rpow_one]

theorem C8_monthly_rate_roundtrip_witness :
    (0 : ℝ) ≤ 1 ∧ (1 : ℝ) ≤ 1 ∧ (1 + annual_to_monthly_rate 1) ^ (12 : ℕ) = 1 + 1 :=
  ⟨zero_le_one, le_refl 1, C8_monthly_rate_roundtrip.2 1 zero_le_one (le_refl 1)⟩

lemma inflation_adjust_series_get (rate : ℝ) :
    ∀ (values : List ℝ) (years_list : List ℕ) (i : ℕ) (v : ℝ) (y : ℕ),
      values[i]? = some v → years_list[i]? = some y →
      (inflation_adjust_series values rate years_list)[i]? =
        some (discount_to_present v rate y) := by
  intro values
  induction values with
  | nil => intro ys i v y hv _hy; simp at hv
  | cons a as ih =>
    intro ys i v y hv hy
    cases ys with
    | nil => simp at hy
    | cons b bs =>
      cases i with
      | zero =>
        simp only [List.getElem?_cons_zero, Option.some.injEq] at hv hy
        subst hv; subst hy
        simp [inflation_adjust_series]
      | succ j =>
        simp only [List.getElem?_cons_succ] at hv hy
        have h := ih bs j v y hv hy
        simpa [inflation_adjust_series] using h

/-- C10: on a values sequence and a year-index sequence of unequal lengths,
`inflationAdjustSeries` returns a sequence of length the minimum of the two
input lengths, discounting each paired value by its paired year count (the
unpaired tail is silently dropped by `zip`). -/
theorem C10_inflation_series_zip :
    ∀ (values : List ℝ) (rate : ℝ) (years_list : List ℕ),
      (inflation_adjust_series values rate years_list).length =
        min values.length years_list.length ∧
      ∀ (i : ℕ) (v : ℝ) (y : ℕ), values[i]? = some v → years_list[i]? = some y →
        (inflation_adjust_series values rate years_list)[i]? =
          some (discount_to_present v rate y) := by
  intro values rate years_list
  refine ⟨?_, fun i v y hv hy => inflation_adjust_series_get rate values years_list i v y hv hy⟩
  simp [inflation_adjust_series]

lemma run_months_closed (rm pmt bal : ℝ) (k : ℕ) :
    run_months rm pmt bal k =
      bal * (1 + rm) ^ k + pmt * (Finset.range k).sum (fun i => (1 + rm) ^ i) := by
  induction k with
  | zero => simp [run_months]
  | succ n ih =>
    rw [run_months]
    unfold month_step
    rw [ih, geom_sum_succ]
    ring

lemma run_months_add (rm pmt bal : ℝ) (a : ℕ) :
    ∀ b, run_months rm pmt bal (a + b) =
      run_months rm pmt (run_months rm pmt bal a) b := by
  intro b
  induction b with
  | zero => rfl
  | succ n ih =>
    show month_step rm pmt (run_months rm pmt bal (a + n)) = _
    rw [ih]
    rfl

lemma yearly_balances_length (rm pmt : ℝ) :
    ∀ (n : ℕ) (bal : ℝ), (yearly_balances rm pmt bal n).length = n := by
  intro n
  induction n with
  | zero => intro bal; rfl
  | succ k ih => intro bal; simp only [yearly_balances, List.length_cons, ih]

lemma getLast?_cons_some {α : Type} (a c : α) (l : List α)
    (h : l.getLast? = some c) : (a :: l).getLast? = some c := by
  cases l with
  | nil => simp at h
  | cons b t => rw [List.getLast?_cons_cons]; exact h

lemma yearly_balances_getLast (rm pmt : ℝ) :
    ∀ (n : ℕ) (bal : ℝ),
      (yearly_balances rm pmt bal (n + 1)).getLast? =
        some (run_months rm pmt bal (12 * (n + 1))) := by
  intro n
  induction n with
  | zero => intro bal; simp [yearly_balances]
  | succ k ih =>
    intro bal
    have h12 : 12 * (k + 1 + 1) = 12 + 12 * (k + 1) := by ring
    rw [h12, run_months_add rm pmt bal 12 (12 * (k + 1))]
    show (run_months rm pmt bal 12 ::
        yearly_balances rm pmt (run_months rm pmt bal 12) (k + 1)).getLast? = _
    exact getLast?_cons_some _ _ _ (ih (run_months rm pmt bal 12))

/-- C1: for non-negative currentSavings, monthlyInvestment and annualReturn
and integer years ≥ 1, the year-by-year month-by-month simulation produces
exactly `years` balances and its final balance equals
`projectPortfolioCorpus` — the simulation agrees exactly with the closed-form
lump-sum-plus-annuity formula over years*12 months. -/
theorem C1_trajectory_matches_corpus :
    ∀ (P pmt r : ℝ) (years : ℕ), 0 ≤ P → 0 ≤ pmt → 0 ≤ r → 1 ≤ years →
      (yearly_balances (annual_to_monthly_rate r) pmt P years).length = years ∧
      (yearly_balances (annual_to_monthly_rate r) pmt P years).getLast? =
        some (project_corpus P pmt r years) := by
  intro P pmt r years _hP _hpmt _hr hy
  refine ⟨yearly_balances_length _ _ years P, ?_⟩
  obtain ⟨n, rfl⟩ : ∃ n, years = n + 1 := ⟨years - 1, by omega⟩
  rw [yearly_balances_getLast, run_months_closed]
  simp only [project_corpus, fv_lump_sum, fv_annuity]
  generalize annual_to_monthly_rate r = rm
  congr 1
  have hmm : (n + 1) * 12 = 12 * (n + 1) := Nat.mul_comm _ _
  rw [hmm]
  by_cases h0 : rm = 0
  · subst h0
    norm_num [Finset.sum_const, Finset.card_range, smul_eq_mul]
  · rw [if_neg h0]
    have hx1 : (1 : ℝ) + rm ≠ 1 := fun hc => h0 (by linarith)
    rw [geom_sum_eq hx1, add_sub_cancel_left]

theorem C1_trajectory_matches_corpus_witness :
    (0 : ℝ) ≤ 1 ∧ (0 : ℝ) ≤ 2 ∧ (0 : ℝ) ≤ 0 ∧ 1 ≤ 1 ∧
    (yearly_balances (annual_to_monthly_rate 0) 2 1 1).length = 1 ∧
    (yearly_balances (annual_to_monthly_rate 0) 2 1 1).getLast? =
      some (project_corpus 1 2 0 1) := by
  have h := C1_trajectory_matches_corpus 1 2 0 1 zero_le_one (by norm_num)
    (le_refl 0) (le_refl 1)
  exact ⟨zero_le_one, by norm_num, le_refl 0, le_refl 1, h.1, h.2⟩

theorem C10_inflation_series_zip_witness :
    (([1] : List ℝ)[0]? = some 1) ∧ (([2] : List ℕ)[0]? = some 2) ∧
    (inflation_adjust_series [1] 0 [2, 3])[0]? = some (discount_to_present 1 0 2) := by
  refine ⟨rfl, rfl, ?_⟩
  exact (C10_inflation_series_zip [1] 0 [2, 3]).2 0 1 2 rfl rfl

lemma attempt_loop_none :
    ∀ responses : List (Option String),
      (∀ resp ∈ responses, resp = none) → attempt_loop responses = none := by
  intro rs
  induction rs with
  | nil => intro _; rfl
  | cons r rest ih =>
    intro h
    have hr : r = none := h r (by simp)
    subst hr
    show attempt_loop rest = none
    exact ih fun x hx => h x (by simp [hx])

lemma call_llm_absent (api_key : Option String) (responses : List (Option String))
    (h : api_key = none ∨ ∀ resp ∈ responses, resp = none) :
    call_llm_with_backoff api_key responses = none := by
  rcases h with h | h
  · subst h; rfl
  · cases api_key with
    | none => rfl
    | some k => exact attempt_loop_none responses h

lemma infix_skip {x rest : List Char} (a : List Char) (h : x <:+: rest) :
    x <:+: a ++ rest :=
  h.trans (List.suffix_append a rest).isInfix

lemma infix_here (x B : List Char) : x <:+: x ++ B :=
  (List.prefix_append x B).isInfix

lemma fallback_contains_age (age mi cs horizon : ℕ) (risk : RiskLevel) (q : ℚ) :
    (Nat.repr age).data <:+: (fallback_advice age mi cs horizon risk q).data := by
  simp only [fallback_advice, String.data_append, List.append_assoc]
  exact infix_skip _ (infix_here _ _)

lemma fallback_contains_mi (age mi cs horizon : ℕ) (risk : RiskLevel) (q : ℚ) :
    (group_digits mi).data <:+: (fallback_advice age mi cs horizon risk q).data := by
  simp only [fallback_advice, String.data_append, List.append_assoc]
  exact infix_skip _ (infix_skip _ (infix_skip _ (infix_here _ _)))

lemma fallback_contains_horizon (age mi cs horizon : ℕ) (risk : RiskLevel) (q : ℚ) :
    (Nat.repr horizon).data <:+: (fallback_advice age mi cs horizon risk q).data := by
  simp only [fallback_advice, String.data_append, List.append_assoc]
  exact infix_skip _ (infix_skip _ (infix_skip _ (infix_skip _ (infix_skip _
    (infix_skip _ (infix_skip _ (infix_here _ _)))))))

lemma fallback_ne_empty (age mi cs horizon : ℕ) (risk : RiskLevel) (q : ℚ) :
    fallback_advice age mi cs horizon risk q ≠ "" := by
  intro h
  have hd := congrArg String.data h
  simp only [fallback_advice, String.data_append, List.append_assoc,
    List.append_eq_nil] at hd
  have h0 : "Based on your age (".data ≠ [] := by decide
  exact h0 hd.1

lemma run_advisor_none_advice (age horizon income mi cs : ℕ)
    (infl fdr : ℝ) (goals : List String) :
    (run_advisor age horizon income mi cs infl fdr goals none).advice =
      fallback_advice age mi cs horizon
        (infer_risk age horizon goals mi income).1
        (expected_return_from_risk (infer_risk age horizon goals mi income).1) :=
  rfl

lemma run_advisor_fields (age horizon income mi cs : ℕ)
    (infl fdr : ℝ) (goals : List String) (llm : Option String) :
    (run_advisor age horizon income mi cs infl fdr goals llm).risk_level =
        (infer_risk age horizon goals mi income).1 ∧
    (run_advisor age horizon income mi cs infl fdr goals llm).exp_ret =
        expected_return_from_risk (infer_risk age horizon goals mi income).1 ∧
    (run_advisor age horizon income mi cs infl fdr goals llm).balances_nominal =
        yearly_balances
          (annual_to_monthly_rate
            ((expected_return_from_risk (infer_risk age horizon goals mi income).1 : ℚ) : ℝ))
          (mi : ℝ) (cs : ℝ) horizon ∧
    (run_advisor age horizon income mi cs infl fdr goals llm).balances_real =
        inflation_adjust_series
          (run_advisor age horizon income mi cs infl fdr goals llm).balances_nominal
          infl (List.range' 1 horizon) ∧
    (run_advisor age horizon income mi cs infl fdr goals llm).corpus_port =
        project_corpus (cs : ℝ) (mi : ℝ)
          ((expected_return_from_risk (infer_risk age horizon goals mi income).1 : ℚ) : ℝ)
          horizon :=
  ⟨rfl, rfl, rfl, rfl, rfl⟩

/-- C6 (amended): when the narrator is absent — the credential is missing or
every retry attempt fails — the run still completes with a full numeric
result, and the advisory text is the non-empty deterministic fallback
sentence interpolating the profile's age, monthly investment, current
savings, horizon, inferred tier and expected return; it contains the input
age and horizon verbatim, and the monthly investment in comma-grouped form
(verbatim only when it is below 1000, since Python's `{:,.0f}` groups
thousands). -/
theorem C6_fallback_on_absent_narrator :
    ∀ (age horizon income monthly_invest current_savings : ℕ)
      (inflation_rate fd_rate : ℝ) (goals : List String)
      (api_key : Option String) (responses : List (Option String)),
      (api_key = none ∨ ∀ resp ∈ responses, resp = none) →
      call_llm_with_backoff api_key responses = none ∧
      (let out := run_advisor age horizon income monthly_invest current_savings
          inflation_rate fd_rate goals (call_llm_with_backoff api_key responses)
       out.advice = fallback_advice age monthly_invest current_savings horizon
          out.risk_level out.exp_ret ∧
       out.advice ≠ "" ∧
       (Nat.repr age).data <:+: out.advice.data ∧
       (Nat.repr horizon).data <:+: out.advice.data ∧
       (group_digits monthly_invest).data <:+: out.advice.data ∧
       out.balances_nominal.length = horizon ∧
       out.balances_real.length = horizon ∧
       out.corpus_port = project_corpus current_savings monthly_invest
          ((out.exp_ret : ℚ) : ℝ) horizon) := by
  intro age horizon income mi cs infl fdr goals key rs h
  have habs : call_llm_with_backoff key rs = none := call_llm_absent key rs h
  refine ⟨habs, ?_⟩
  rw [habs]
  obtain ⟨hrisk, hret, hbn, hbr, hcp⟩ :=
    run_advisor_fields age horizon income mi cs infl fdr goals none
  have hadv := run_advisor_none_advice age horizon income mi cs infl fdr goals
  refine ⟨?_, ?_, ?_, ?_, ?_, ?_, ?_, ?_⟩
  · rw [hadv, hrisk, hret]
  · rw [hadv]; exact fallback_ne_empty _ _ _ _ _ _
  · rw [hadv]; exact fallback_contains_age _ _ _ _ _ _
  · rw [hadv]; exact fallback_contains_horizon _ _ _ _ _ _
  · rw [hadv]; exact fallback_contains_mi _ _ _ _ _ _
  · rw [hbn]; exact yearly_balances_length _ _ horizon _
  · rw [hbr]
    simp [inflation_adjust_series, hbn, yearly_balances_length]
  · rw [hcp, hret]

theorem C6_fallback_on_absent_narrator_witness :
    ((none : Option String) = none ∨
      ∀ resp ∈ ([] : List (Option String)), resp = none) ∧
    (call_llm_with_backoff none [] = none ∧
      (let out := run_advisor 30 15 100000 20000 0 0 0 ["Wealth Creation"]
          (call_llm_with_backoff none [])
       out.advice = fallback_advice 30 20000 0 15 out.risk_level out.exp_ret ∧
       out.advice ≠ "" ∧
       (Nat.repr 30).data <:+: out.advice.data ∧
       (Nat.repr 15).data <:+: out.advice.data ∧
       (group_digits 20000).data <:+: out.advice.data ∧
       out.balances_nominal.length = 15 ∧
       out.balances_real.length = 15 ∧
       out.corpus_port = project_corpus ((0 : ℕ) : ℝ) ((20000 : ℕ) : ℝ)
          ((out.exp_ret : ℚ) : ℝ) 15)) := by
  refine ⟨Or.inl rfl, ?_⟩
  exact C6_fallback_on_absent_narrator 30 15 100000 20000 0 0 0
    ["Wealth Creation"] none [] (Or.inl rfl)

set_option maxRecDepth 100000 in
/-- C6 counterexample: the fallback sentence renders the monthly investment
with Python's thousands separator, so for monthlyInvestment = 20000 the text
contains "20,000" but not the verbatim digits "20000". -/
theorem C6_counterexample :
    ¬ (Nat.repr 20000).data <:+:
        ((run_advisor 30 15 100000 20000 0 0 0 ["Wealth Creation"] none).advice).data := by
  have hr : infer_risk ((30 : ℕ) : ℤ) ((15 : ℕ) : ℤ) ["Wealth Creation"]
      ((20000 : ℕ) : ℚ) ((100000 : ℕ) : ℚ) = (.high, 5) := by
    rw [infer_risk_eq_additive]
    norm_num [additive_score, savings_rate, tier_for_score]
  have ha : (run_advisor 30 15 100000 20000 0 0 0 ["Wealth Creation"] none).advice =
      fallback_advice 30 20000 0 15 .high (expected_return_from_risk .high) := by
    rw [run_advisor_none_advice, hr]
  rw [ha]
  simp only [fallback_advice, expected_return_from_risk]
  rw [show (0.14 : ℚ) * 100 = 14 from by norm_num]
  decide

end SmartAdvisor
